import Mathlib

/-!
Shallow embedding of the custodial wallet ledger of the p2p-backend
repository: `apps/wallet/models.py`, `apps/wallet/views.py`,
`apps/wallet/tasks.py`, `apps/wallet/serializers.py` and
`apps/wallet/blockchain.py`.  Monetary amounts (Python `Decimal` values with a
fixed 8-digit fractional scale) are modelled as integers counted in the
currency's minimal unit; addition, subtraction and order are preserved
exactly by this scaling.  The one genuine division, the ERC20 balance
scaling, keeps an exact rational result.  Each definition mirrors one function or code path of
the source; the file and line range it embeds is noted in its doc comment.
-/

namespace P2P

/-- Transaction types, from `Transaction.TRANSACTION_TYPES`
(models.py lines 80-90). -/
inductive TxType
  | deposit
  | withdrawal
  | transfer
  | trade
  | staking
  | earning
  | fee
  | rebate
  | adjustment
deriving DecidableEq, Repr

/-- Transaction statuses.  The first six are `Transaction.STATUS_CHOICES`
(models.py lines 92-99); `confirmed`, `notFound` and `errorStatus` are the
extra strings returned by `BlockchainManager.get_transaction_status`
(blockchain.py lines 398-453) which the views write back into
`transaction.status` unchanged. -/
inductive TxStatus
  | pending
  | completed
  | failed
  | canceled
  | rejected
  | processing
  | confirmed
  | notFound
  | errorStatus
deriving DecidableEq, Repr

/-- Wallet ledger record (models.py lines 53-76); only the fields the wallet
code mutates are kept. -/
structure Wallet where
  balance : ℤ
  locked : ℤ
deriving DecidableEq, Repr

/-- The `Wallet.available_balance` property (models.py lines 74-76). -/
def Wallet.available_balance (w : Wallet) : ℤ := w.balance - w.locked

/-- The ledger invariant stated in spec section 8: `0 ≤ locked ≤ balance`. -/
def WalletInvariant (w : Wallet) : Prop := 0 ≤ w.locked ∧ w.locked ≤ w.balance

/-- Transaction record (models.py lines 79-139); fields not touched by the
withdrawal/deposit flows are omitted.  `completedAt` records whether
`completed_at` has been set.  `error_message` is assigned by tasks.py even
though models.py declares no such column (in Python the assignment succeeds
as a transient attribute). -/
structure Transaction where
  amount : ℤ
  type : TxType
  status : TxStatus
  currencyCode : String
  network : Option String
  memo : String
  address : String
  txid : Option String
  completedAt : Bool
  error_message : Option String
deriving DecidableEq, Repr

/-- Withdrawal limit record, with exactly the fields models.py
lines 174-209 declare: `limit_amount`, `used_amount`, and (as the Boolean
`resetActive`) whether `reset_at >= now`, the filter the serializer applies
(serializers.py lines 89-93).  views.py instead accesses `limit_24h` /
`used_24h`, names this record does not declare: in Django those accesses
raise `FieldError` (in `get_or_create` defaults) or `AttributeError` (on an
instance), and the embeddings below model each such access as the uncaught
exception it is. -/
structure WithdrawalLimit where
  limit_amount : ℤ
  used_amount : ℤ
  resetActive : Bool
deriving DecidableEq, Repr

/-- Wallet lock statement of withdrawal creation: `wallet.locked += amount`
(views.py line 218).  The balance is not reduced.  In the current views.py
this statement is dead code — the withdrawal-limit step above it raises
before it runs (see `viewCreate`) — but it is the ledger lock the code
states and spec Scenario A describes, so the invariant claims are checked
against it as an individual mutation. -/
def lockFunds (w : Wallet) (amount : ℤ) : Wallet :=
  { w with locked := w.locked + amount }

/-- Wallet update on a successful broadcast (tasks.py lines 58-63): the
locked amount is removed when it is covered; the balance is left
untouched. -/
def settleOnSuccess (w : Wallet) (amount : ℤ) : Wallet :=
  if amount ≤ w.locked then { w with locked := w.locked - amount } else w

/-- Wallet update on the withdrawal failure path (tasks.py lines 82-88):
when the locked amount is covered, it is removed from `locked` and added
back onto `balance`. -/
def releaseOnFailure (w : Wallet) (amount : ℤ) : Wallet :=
  if amount ≤ w.locked then
    { w with locked := w.locked - amount, balance := w.balance + amount }
  else w

/-- Wallet update on user cancellation (views.py lines 257-260):
`locked -= amount; balance += amount`, with no guard on `locked`. -/
def cancelRelease (w : Wallet) (amount : ℤ) : Wallet :=
  { w with locked := w.locked - amount, balance := w.balance + amount }

/-- Unlock performed by the status endpoint's confirmed branch
(views.py lines 337-339): `locked -= amount`, with no guard. -/
def statusUnlock (w : Wallet) (amount : ℤ) : Wallet :=
  { w with locked := w.locked - amount }

/-- Per-wallet body of `WalletViewSet._sync_blockchain_balances`
(views.py lines 107-110): the stored balance is overwritten with the
observed chain balance whenever they differ; `locked` is not consulted. -/
def syncBlockchainBalance (chainBalance : ℤ) (w : Wallet) : Wallet :=
  if w.balance ≠ chainBalance then { w with balance := chainBalance } else w

/-- Error outcomes of the transaction-creation endpoint
(serializers.py lines 74-105 and views.py lines 143-244).
`limitFieldError` is the uncaught `FieldError` / `AttributeError` raised by
the view's withdrawal-limit step when it accesses the undeclared
`limit_24h` / `used_24h` fields (views.py lines 196-204); `unhandledType`
is the view falling off the end without a response for the remaining
transaction types. -/
inductive CreateError
  | insufficientBalance
  | limitExceeded
  | invalidAddressFormat
  | depositsViaBlockchain
  | networkRequired
  | memoTooLong
  | depositNotAllowed
  | belowMinWithdrawal
  | limitFieldError
  | unhandledType
deriving DecidableEq, Repr

/-- Input of one transaction-creation request.  `minWithdrawal` is the
`currency.min_withdrawal` reference value consulted by views.py line 190. -/
structure CreateRequest where
  currencyCode : String
  minWithdrawal : ℤ
  amount : ℤ
  type : TxType
  address : String
  network : Option String
  memo : String
deriving DecidableEq, Repr

/-- `CreateTransactionSerializer.validate` (serializers.py lines 74-105):
for withdrawals it checks available balance, then the withdrawal limit of
the active period (`reset_at >= now`), then the address length; deposits
are rejected outright. -/
def serializerValidate (req : CreateRequest) (w : Wallet) (lim : WithdrawalLimit) :
    Option CreateError :=
  if req.type = .withdrawal then
    if w.available_balance < req.amount then some .insufficientBalance
    else if lim.resetActive = true ∧ lim.used_amount + req.amount > lim.limit_amount then
      some .limitExceeded
    else if req.address.length < 20 then some .invalidAddressFormat
    else none
  else if req.type = .deposit then some .depositsViaBlockchain
  else none

/-- Body of `TransactionViewSet.create` after serializer validation
(views.py lines 147-244): USDT network/memo checks, deposit rejection,
available-balance check, minimum-withdrawal check — and then the
withdrawal-limit step (views.py lines 196-204), which accesses fields the
`WithdrawalLimit` model does not declare: `get_or_create` with
`defaults={'limit_24h': ..., 'used_24h': 0}` raises `FieldError` when no
row exists, and `limit.used_24h` raises `AttributeError` when one does.
Either way the request ends in an uncaught exception before the lock at
line 218, so the lock, the pending-transaction creation (lines 222-232) and
the usage bump (lines 238-239) are unreachable and every request ends in
some error; no state named here is mutated on any path (the only prior
write, line 167's `get_or_create` of a fresh zero wallet, creates a row
but alters no existing wallet). -/
def viewCreate (req : CreateRequest) (w : Wallet) : CreateError :=
  if req.currencyCode = "USDT" ∧ ¬(req.network = some "ERC20" ∨ req.network = some "TRC20") then
    .networkRequired
  else if req.currencyCode = "USDT" ∧ 120 < req.memo.length then
    .memoTooLong
  else if req.type = .deposit then
    .depositNotAllowed
  else if req.type = .withdrawal then
    if w.available_balance < req.amount then .insufficientBalance
    else if req.amount < req.minWithdrawal then .belowMinWithdrawal
    else .limitFieldError
  else .unhandledType

/-- Full transaction-creation request: serializer validation
(`serializer.is_valid(raise_exception=True)`, views.py lines 144-145)
followed by the view body.  The withdrawal limit is consulted only by the
serializer, which uses the declared `used_amount` / `limit_amount` fields;
the view's own limit access is the `limitFieldError` crash. -/
def createTransaction (req : CreateRequest) (w : Wallet) (lim : WithdrawalLimit) :
    CreateError :=
  match serializerValidate req w lim with
  | some e => e
  | none => viewCreate req w

/-- One run of the `process_withdrawal` task (tasks.py lines 13-99).
`send` is the outcome of `blockchain.send_transaction`: `some h` when a
transaction hash is returned, `none` when it returns a falsy value or
raises a non-transient error (both reach the failure path that marks the
transaction failed and releases the funds). -/
def process_withdrawal (send : Option String) (t : Transaction) (w : Wallet) :
    Transaction × Wallet :=
  if t.status ≠ .pending then (t, w)
  else if t.type ≠ .withdrawal then (t, w)
  else if t.currencyCode = "USDT" ∧ t.network = none then
    ({ t with status := .failed }, w)
  else
    match send with
    | some h =>
        ({ t with status := .completed, txid := some h, completedAt := true },
         settleOnSuccess w t.amount)
    | none =>
        ({ t with
            status := .failed
            error_message := some "Blockchain manager returned no transaction hash" },
         releaseOnFailure w t.amount)

/-- `TransactionViewSet.status` (views.py lines 307-345): for a transaction
with a txid and a supported currency, the chain-reported status is written
back when it differs; a newly `confirmed` withdrawal additionally gets
`completed_at` set and its amount unlocked via `statusUnlock`. -/
def statusAction (chainStatus : TxStatus) (t : Transaction) (w : Wallet) :
    Transaction × Wallet :=
  if t.txid = none then (t, w)
  else if t.currencyCode = "BTC" ∨ t.currencyCode = "USDT" ∨ t.currencyCode = "ETH" then
    if chainStatus ≠ t.status then
      if chainStatus = .confirmed then
        if t.type = .withdrawal then
          ({ t with status := chainStatus, completedAt := true }, statusUnlock w t.amount)
        else
          ({ t with status := chainStatus, completedAt := true }, w)
      else
        ({ t with status := chainStatus }, w)
    else (t, w)
  else (t, w)

/-- Watched deposit address (models.py lines 142-163).  Modelled from the
spec: the `reusable` flag is read by tasks.py line 163 but is not declared
on `DepositAddress` in models.py; per spec section 3 it marks an address
that keeps accepting deposits instead of deactivating after the first. -/
structure DepositAddress where
  address : String
  is_active : Bool
  reusable : Bool
deriving DecidableEq, Repr

/-- Deposit transaction record created by tasks.py lines 145-154. -/
def depositTx (currencyCode currencyNetwork : String) (amt : ℤ) (addr : String) :
    Transaction :=
  { amount := amt
    type := .deposit
    status := .completed
    currencyCode := currencyCode
    network := if currencyCode = "USDT" then some currencyNetwork else none
    memo := ""
    address := addr
    txid := none
    completedAt := false
    error_message := none }

/-- Result of one polling iteration of `check_deposit_status`:
the deposit transaction created (if any), the wallet state afterwards
together with its `address` field (`none` while no wallet row exists),
and the deposit address record afterwards. -/
structure PollResult where
  txCreated : Option Transaction
  walletAfter : Option (Wallet × Option String)
  addr : DepositAddress
deriving DecidableEq, Repr

/-- Deactivation step of tasks.py lines 162-166: a non-reusable address has
`is_active` cleared; it is reached on every poll that observes a positive
balance, whether or not anything was credited. -/
def deactivateIfOneShot (da : DepositAddress) : DepositAddress :=
  if da.reusable = false then { da with is_active := false } else da

/-- One iteration of the `check_deposit_status` polling loop
(tasks.py lines 113-170).  `current` is the balance the adapter reports for
`da.address`; the final argument is the existing wallet row for
(user, currency) together with its `address` field, or `none` when no row
exists yet (then `get_or_create` inserts a zero wallet whose `address`
stays unset, tasks.py lines 130-134).  Per tasks.py lines 136-143 the
credited amount is `current - wallet.balance` only when the wallet
pre-existed (`created` false) and the polled address is the wallet's own
address; in every other case the full observed balance is credited.  The
branches on `0 < current` and on the credited amount mirror the source's
`current_balance > 0` and `deposited_amount > 0` tests (in the `none` and
mismatched-address branches the credited amount is `current` itself, so the
second test coincides with the first). -/
def check_deposit_poll (currencyCode currencyNetwork : String) (current : ℤ)
    (da : DepositAddress) :
    Option (Wallet × Option String) → PollResult
  | none =>
      if 0 < current then
        { txCreated := some (depositTx currencyCode currencyNetwork current da.address)
          walletAfter := some ({ balance := current, locked := 0 }, none)
          addr := deactivateIfOneShot da }
      else { txCreated := none, walletAfter := none, addr := da }
  | some (w, waddr) =>
      if 0 < current then
        if waddr = some da.address then
          if 0 < current - w.balance then
            { txCreated := some (depositTx currencyCode currencyNetwork
                (current - w.balance) da.address)
              walletAfter := some ({ w with balance := w.balance + (current - w.balance) }, waddr)
              addr := deactivateIfOneShot da }
          else
            { txCreated := none, walletAfter := some (w, waddr), addr := deactivateIfOneShot da }
        else
          { txCreated := some (depositTx currencyCode currencyNetwork current da.address)
            walletAfter := some ({ w with balance := w.balance + current }, waddr)
            addr := deactivateIfOneShot da }
      else { txCreated := none, walletAfter := some (w, waddr), addr := da }

/-- Token configuration table `token_configs` (blockchain.py lines 54-60):
only USDT is configured, with 6 decimals; the lookup yields the decimal
count. -/
def tokenConfig (token : String) : Option Nat :=
  if token = "USDT" then some 6 else none

/-- `BlockchainManager._get_erc20_balance` (blockchain.py lines 493-518).
`queryResult` is the raw `balanceOf` result, `none` when the contract call
raises.  An unconfigured token raises `ValueError`; a failed query raises
`ConnectionError`; a successful query returns the scaled decimal balance.
No path returns zero on failure. -/
def get_erc20_balance (token : String) (queryResult : Option ℕ) : Except String ℚ :=
  match tokenConfig token with
  | none => .error ("Token not configured: " ++ token)
  | some decimals =>
      match queryResult with
      | some bal => .ok ((bal : ℚ) / 10 ^ decimals)
      | none => .error ("Failed to get " ++ token ++ " balance")

/-- Concrete withdrawal limit with ample room and an active period. -/
def ampleLim : WithdrawalLimit := { limit_amount := 1000, used_amount := 0, resetActive := true }

/-- Scenario E's request: withdraw 25 units. -/
def c5Req : CreateRequest :=
  { currencyCode := "BTC", minWithdrawal := 0, amount := 25, type := .withdrawal,
    address := "bc1q-test-address-0123456789", network := none, memo := "" }

/-- Scenario E's limit: limit 100, used 80, period still active. -/
def c5Lim : WithdrawalLimit := { limit_amount := 100, used_amount := 80, resetActive := true }

/-- Boundary request: withdraw exactly 100 units. -/
def c6Req : CreateRequest :=
  { currencyCode := "BTC", minWithdrawal := 0, amount := 100, type := .withdrawal,
    address := "bc1q-test-address-0123456789", network := none, memo := "" }

/-- Boundary request one unit above the available balance. -/
def c6ReqOver : CreateRequest := { c6Req with amount := 101 }

/-- Deposit-typed request for the public transaction endpoint. -/
def c10Req : CreateRequest :=
  { currencyCode := "BTC", minWithdrawal := 0, amount := 40, type := .deposit,
    address := "bc1q-test-address-0123456789", network := none, memo := "" }

/-- Reusable deposit address that is nobody's primary wallet address. -/
def cDa : DepositAddress := { address := "depaddr1", is_active := true, reusable := true }

/-- Reusable deposit address used as the wallet's primary address. -/
def cDa2 : DepositAddress := { address := "depaddr2", is_active := true, reusable := true }

/-- One-shot (non-reusable) deposit address. -/
def cDa3 : DepositAddress := { address := "depaddr3", is_active := true, reusable := false }

/-- Serializer validation rejects every deposit-typed request. -/
theorem serializerValidate_deposit (req : CreateRequest) (w : Wallet)
    (lim : WithdrawalLimit) (hty : req.type = .deposit) :
    serializerValidate req w lim = some .depositsViaBlockchain := by
  unfold serializerValidate
  rw [hty, if_neg (by decide), if_pos rfl]

/-- Claim C10: every transaction-creation request typed `deposit` is
rejected by serializer validation with the deposits-via-blockchain error;
the serializer raises before the view body runs, so no transaction record
is created and no wallet is touched. -/
theorem deposit_create_rejected (req : CreateRequest) (w : Wallet) (lim : WithdrawalLimit)
    (hty : req.type = .deposit) :
    createTransaction req w lim = .depositsViaBlockchain := by
  unfold createTransaction
  rw [serializerValidate_deposit req w lim hty]

/-- Witness for C10 at a concrete deposit request. -/
theorem deposit_create_rejected_witness :
    createTransaction c10Req (Wallet.mk 100 0) ampleLim = .depositsViaBlockchain :=
  deposit_create_rejected c10Req (Wallet.mk 100 0) ampleLim rfl

/-- A `process_withdrawal` run on a non-pending transaction is a no-op
(tasks.py lines 25-27). -/
theorem process_withdrawal_not_pending (send : Option String) (t : Transaction)
    (w : Wallet) (h : t.status ≠ .pending) :
    process_withdrawal send t w = (t, w) := by
  unfold process_withdrawal
  rw [if_pos h]

/-- Every `process_withdrawal` run either changes nothing or leaves the
transaction in a non-pending status. -/
theorem process_withdrawal_cases (send : Option String) (t : Transaction) (w : Wallet) :
    process_withdrawal send t w = (t, w)
    ∨ (process_withdrawal send t w).1.status ≠ .pending := by
  unfold process_withdrawal
  split
  · exact Or.inl rfl
  · split
    · exact Or.inl rfl
    · split
      · exact Or.inr (by simp)
      · split
        · exact Or.inr (by simp)
        · exact Or.inr (by simp)

/-- A `statusAction` run on a transaction already carrying the chain-reported
status is a no-op (the `status_info['status'] != transaction.status` guard,
views.py line 332). -/
theorem statusAction_self (chainStatus : TxStatus) (t : Transaction) (w : Wallet)
    (h : t.status = chainStatus) :
    statusAction chainStatus t w = (t, w) := by
  unfold statusAction
  split
  · rfl
  · split
    · rw [if_neg (fun hne => hne h.symm)]
    · rfl

/-- Every `statusAction` run either changes nothing or writes the
chain-reported status into the transaction. -/
theorem statusAction_cases (chainStatus : TxStatus) (t : Transaction) (w : Wallet) :
    statusAction chainStatus t w = (t, w)
    ∨ (statusAction chainStatus t w).1.status = chainStatus := by
  unfold statusAction
  split
  · exact Or.inl rfl
  · split
    · split
      · split
        · split
          · exact Or.inr (by simp)
          · exact Or.inr (by simp)
        · exact Or.inr (by simp)
      · exact Or.inl rfl
    · exact Or.inl rfl

/-- Claim C4: applying the completed-transition handler twice — running the
`process_withdrawal` task a second time on the same transaction, or feeding
the status endpoint the same chain-reported status again — produces exactly
the same transaction and wallet state as applying it once, so funds are
never double-settled or double-released.  Both handlers guard on the
current status before applying any ledger effect. -/
theorem transition_idempotent (send : Option String) (chainStatus : TxStatus)
    (t : Transaction) (w : Wallet) :
    process_withdrawal send (process_withdrawal send t w).1 (process_withdrawal send t w).2
      = process_withdrawal send t w
    ∧ statusAction chainStatus (statusAction chainStatus t w).1 (statusAction chainStatus t w).2
      = statusAction chainStatus t w := by
  constructor
  · rcases process_withdrawal_cases send t w with h | h
    · rw [h]
      exact h
    · calc process_withdrawal send (process_withdrawal send t w).1 (process_withdrawal send t w).2
          = ((process_withdrawal send t w).1, (process_withdrawal send t w).2) :=
            process_withdrawal_not_pending send _ _ h
        _ = process_withdrawal send t w := Prod.mk.eta
  · rcases statusAction_cases chainStatus t w with h | h
    · rw [h]
      exact h
    · calc statusAction chainStatus (statusAction chainStatus t w).1 (statusAction chainStatus t w).2
          = ((statusAction chainStatus t w).1, (statusAction chainStatus t w).2) :=
            statusAction_self chainStatus _ _ h
        _ = statusAction chainStatus t w := Prod.mk.eta

/-- Counterexample to claim C3: the invariant `0 ≤ locked ≤ balance` does
not survive the blockchain balance sync.  A wallet at (100, 40) satisfies
the invariant; the sync — run on every wallet of the requesting user by
`WalletViewSet.get_queryset` — observes an on-chain balance of 0 (an empty
address) and overwrites `balance` without consulting `locked`, leaving
(0, 40) with `locked > balance`. -/
theorem wallet_invariant_claim_false :
    WalletInvariant (Wallet.mk 100 40)
    ∧ syncBlockchainBalance 0 (Wallet.mk 100 40) = Wallet.mk 0 40
    ∧ ¬ WalletInvariant (syncBlockchainBalance 0 (Wallet.mk 100 40)) := by
  refine ⟨⟨by decide, by decide⟩, by decide, ?_⟩
  unfold WalletInvariant syncBlockchainBalance
  decide

/-- Claim C3, amended: `available_balance` always equals `balance - locked`
(it is recomputed, never stored), and `0 ≤ locked ≤ balance` is preserved by
the lock (when the amount is covered by the available balance), by the
guarded settle-on-success and release-on-failure paths, and by cancellation
when the amount does not exceed `locked` — but not by the blockchain balance
sync, which overwrites `balance` with the observed chain value regardless of
`locked`. -/
theorem wallet_invariant_amended (w : Wallet) (amount : ℤ) (hamt : 0 ≤ amount)
    (hinv : WalletInvariant w) :
    w.available_balance = w.balance - w.locked
    ∧ (amount ≤ w.available_balance → WalletInvariant (lockFunds w amount))
    ∧ WalletInvariant (settleOnSuccess w amount)
    ∧ WalletInvariant (releaseOnFailure w amount)
    ∧ (amount ≤ w.locked → WalletInvariant (cancelRelease w amount)) := by
  obtain ⟨h0, h1⟩ := hinv
  refine ⟨rfl, ?_, ?_, ?_, ?_⟩
  · intro hle
    unfold Wallet.available_balance at hle
    unfold WalletInvariant lockFunds
    constructor
    · show 0 ≤ w.locked + amount
      linarith
    · show w.locked + amount ≤ w.balance
      linarith
  · unfold WalletInvariant settleOnSuccess
    split_ifs with h
    · constructor
      · show 0 ≤ w.locked - amount
        linarith
      · show w.locked - amount ≤ w.balance
        linarith
    · exact ⟨h0, h1⟩
  · unfold WalletInvariant releaseOnFailure
    split_ifs with h
    · constructor
      · show 0 ≤ w.locked - amount
        linarith
      · show w.locked - amount ≤ w.balance + amount
        linarith
    · exact ⟨h0, h1⟩
  · intro hle
    unfold WalletInvariant cancelRelease
    constructor
    · show 0 ≤ w.locked - amount
      linarith
    · show w.locked - amount ≤ w.balance + amount
      linarith

/-- Witness for the amended C3: locking 40 on wallet (100, 0) preserves the
invariant. -/
theorem wallet_invariant_amended_witness :
    WalletInvariant (lockFunds (Wallet.mk 100 0) 40) := by
  have h := wallet_invariant_amended (Wallet.mk 100 0) 40 (by decide) ⟨by decide, by decide⟩
  exact h.2.1 (by decide)

/-- Claim C5 (code bug): the rejection half of the claim is real — the
serializer rejects with the limit-exceeded error exactly when
`used_amount + amount > limit_amount` for the active period, before any
mutation, so `used_amount` stays unchanged (first conjunct: Scenario E,
limit 100, used 80, request for 25) — but the acceptance half is not:
a request within the limit passes every validation and then reaches the
view's withdrawal-limit step, which accesses the undeclared
`limit_24h` / `used_24h` fields and raises (second conjunct), so no request
is ever accepted and `used_amount` is never incremented. -/
theorem withdrawal_limit_code_eval :
    createTransaction c5Req (Wallet.mk 1000 0) c5Lim = .limitExceeded
    ∧ createTransaction c5Req (Wallet.mk 1000 0) ampleLim = .limitFieldError :=
  ⟨by decide, by decide⟩

/-- Claim C6 (code bug): the insufficient-balance half of the claim is real
— a request strictly above the available balance is rejected synchronously
by the serializer's first check, before any lock or mutation (second
conjunct, amount 101 against available 100) — but the success half is not:
a withdrawal for exactly the available balance (first conjunct, amount 100)
passes every validation and then crashes at the view's withdrawal-limit
step, before the lock at views.py line 218, so no withdrawal request ever
succeeds or locks funds. -/
theorem withdrawal_boundary_code_eval :
    createTransaction c6Req (Wallet.mk 100 0) ampleLim = .limitFieldError
    ∧ createTransaction c6ReqOver (Wallet.mk 100 0) ampleLim = .insufficientBalance :=
  ⟨by decide, by decide⟩

/-- A one-shot address leaves the deactivation step with `is_active`
cleared. -/
theorem deactivateIfOneShot_of_oneshot (da : DepositAddress) (h : da.reusable = false) :
    deactivateIfOneShot da = { da with is_active := false } := by
  unfold deactivateIfOneShot
  rw [if_pos h]

/-- A reusable address passes the deactivation step unchanged. -/
theorem deactivateIfOneShot_of_reusable (da : DepositAddress) (h : da.reusable = true) :
    deactivateIfOneShot da = da := by
  unfold deactivateIfOneShot
  rw [if_neg (by simp [h])]

/-- Counterexample to claim C7: polling a reusable deposit address that is
not the wallet's primary address double-credits.  First poll at observed
balance 5 credits 5 and leaves the wallet at balance 5; the subsequent poll
with the balance still 5 credits another 5 (wallet balance 10) instead of
crediting nothing. -/
theorem deposit_credit_claim_false :
    (check_deposit_poll "BTC" "mainnet" 5 cDa
        (check_deposit_poll "BTC" "mainnet" 5 cDa none).walletAfter).txCreated
      = some (depositTx "BTC" "mainnet" 5 "depaddr1")
    ∧ (check_deposit_poll "BTC" "mainnet" 5 cDa
        (check_deposit_poll "BTC" "mainnet" 5 cDa none).walletAfter).walletAfter
      = some (Wallet.mk 10 0, none) :=
  ⟨by decide, by decide⟩

/-- Claim C7, amended: the spec's crediting rule — credit exactly
`current - last_observed` when positive and nothing otherwise, with the
wallet's balance as the last observed value — holds only when the polled
address is the existing wallet's primary address; for any other address
(including the wallet freshly created by the poll itself, whose `address`
stays unset) every poll observing a positive balance credits the full
observed balance again. -/
theorem deposit_credit_amended (cc net : String) (current : ℤ) (da : DepositAddress)
    (w : Wallet) (waddr : Option String) (hbal : 0 ≤ w.balance) :
    (waddr = some da.address → w.balance < current →
      (check_deposit_poll cc net current da (some (w, waddr))).txCreated
        = some (depositTx cc net (current - w.balance) da.address)
      ∧ (check_deposit_poll cc net current da (some (w, waddr))).walletAfter
        = some ({ w with balance := current }, waddr))
    ∧ (waddr = some da.address → 0 < current → current ≤ w.balance →
      (check_deposit_poll cc net current da (some (w, waddr))).txCreated = none
      ∧ (check_deposit_poll cc net current da (some (w, waddr))).walletAfter
        = some (w, waddr))
    ∧ (waddr ≠ some da.address → 0 < current →
      (check_deposit_poll cc net current da (some (w, waddr))).txCreated
        = some (depositTx cc net current da.address)) := by
  refine ⟨?_, ?_, ?_⟩
  · intro h1 h2
    have hpos : 0 < current := by linarith
    simp only [check_deposit_poll]
    rw [if_pos hpos, if_pos h1, if_pos (show 0 < current - w.balance by linarith)]
    constructor
    · rfl
    · rw [show w.balance + (current - w.balance) = current by ring]
  · intro h1 hc hle
    simp only [check_deposit_poll]
    rw [if_pos hc, if_pos h1, if_neg (show ¬ 0 < current - w.balance by linarith)]
    exact ⟨rfl, rfl⟩
  · intro h1 hc
    simp only [check_deposit_poll]
    rw [if_pos hc, if_neg h1]

/-- Witness for the amended C7 at Scenario D: the wallet's primary address
rises from 0 to 5; exactly 5 is credited as a completed deposit and the
wallet balance becomes 5. -/
theorem deposit_credit_amended_witness :
    (check_deposit_poll "BTC" "mainnet" 5 cDa2 (some (Wallet.mk 0 0, some "depaddr2"))).txCreated
      = some (depositTx "BTC" "mainnet" 5 "depaddr2")
    ∧ (check_deposit_poll "BTC" "mainnet" 5 cDa2 (some (Wallet.mk 0 0, some "depaddr2"))).walletAfter
      = some (Wallet.mk 5 0, some "depaddr2") := by
  have h := (deposit_credit_amended "BTC" "mainnet" 5 cDa2 (Wallet.mk 0 0)
    (some "depaddr2") (by decide)).1 rfl (by decide)
  constructor
  · rw [h.1]
    decide
  · rw [h.2]

/-- Counterexample to claim C8: a non-reusable address is deactivated on a
poll whose credited delta is zero.  The wallet's primary address already
carries balance 5; the poll observes 5, credits nothing, yet clears
`is_active` — so deactivation does not happen "after the first nonzero
credited delta". -/
theorem oneshot_deactivation_claim_false :
    (check_deposit_poll "BTC" "mainnet" 5 cDa3
        (some (Wallet.mk 5 0, some "depaddr3"))).txCreated = none
    ∧ (check_deposit_poll "BTC" "mainnet" 5 cDa3
        (some (Wallet.mk 5 0, some "depaddr3"))).addr.is_active = false :=
  ⟨by decide, by decide⟩

/-- Claim C8, amended: a non-reusable deposit address is deactivated on the
first poll that observes a positive balance — whether or not anything was
credited on that poll — while a reusable address is never deactivated by the
monitor, and a poll observing a non-positive balance leaves the address
unchanged. -/
theorem oneshot_deactivation_amended (cc net : String) (current : ℤ)
    (da : DepositAddress) (pre : Option (Wallet × Option String)) :
    (0 < current → da.reusable = false →
      (check_deposit_poll cc net current da pre).addr = { da with is_active := false })
    ∧ (da.reusable = true → (check_deposit_poll cc net current da pre).addr = da)
    ∧ (current ≤ 0 → (check_deposit_poll cc net current da pre).addr = da) := by
  refine ⟨?_, ?_, ?_⟩
  · intro hc hr
    cases pre with
    | none =>
        simp only [check_deposit_poll]
        rw [if_pos hc]
        exact deactivateIfOneShot_of_oneshot da hr
    | some p =>
        obtain ⟨w, waddr⟩ := p
        simp only [check_deposit_poll]
        rw [if_pos hc]
        split_ifs <;> exact deactivateIfOneShot_of_oneshot da hr
  · intro hr
    cases pre with
    | none =>
        simp only [check_deposit_poll]
        split_ifs <;> first
          | rfl
          | exact deactivateIfOneShot_of_reusable da hr
    | some p =>
        obtain ⟨w, waddr⟩ := p
        simp only [check_deposit_poll]
        split_ifs <;> first
          | rfl
          | exact deactivateIfOneShot_of_reusable da hr
  · intro hc
    cases pre with
    | none =>
        simp only [check_deposit_poll]
        rw [if_neg (not_lt.mpr hc)]
    | some p =>
        obtain ⟨w, waddr⟩ := p
        simp only [check_deposit_poll]
        rw [if_neg (not_lt.mpr hc)]

/-- Witness for the amended C8: a positive-balance poll on the one-shot
address deactivates it. -/
theorem oneshot_deactivation_amended_witness :
    (check_deposit_poll "BTC" "mainnet" 5 cDa3 none).addr
      = { cDa3 with is_active := false } :=
  (oneshot_deactivation_amended "BTC" "mainnet" 5 cDa3 none).1 (by decide) rfl

/-- Claim C9: for a configured token, the ERC20 balance lookup returns an
error exactly when the underlying contract query fails, and the exact
scaled decimal balance (possibly zero) exactly when it succeeds — a failed
query is never reported as a zero balance. -/
theorem erc20_balance_error_propagation (token : String) (d : ℕ) (q : Option ℕ)
    (hconf : tokenConfig token = some d) :
    ((∃ msg, get_erc20_balance token q = .error msg) ↔ q = none)
    ∧ (∀ b : ℕ, q = some b →
      get_erc20_balance token q = .ok ((b : ℚ) / 10 ^ d)) := by
  constructor
  · constructor
    · rintro ⟨msg, hmsg⟩
      cases q with
      | none => rfl
      | some b =>
          unfold get_erc20_balance at hmsg
          rw [hconf] at hmsg
          exact Except.noConfusion hmsg
    · intro hq
      subst hq
      unfold get_erc20_balance
      rw [hconf]
      exact ⟨"Failed to get " ++ token ++ " balance", rfl⟩
  · intro b hb
    subst hb
    unfold get_erc20_balance
    rw [hconf]

/-- Witness for C9: a successful USDT query of 5000000 raw units yields the
scaled balance, not an error. -/
theorem erc20_balance_error_propagation_witness :
    get_erc20_balance "USDT" (some 5000000) = .ok ((5000000 : ℚ) / 10 ^ 6) :=
  (erc20_balance_error_propagation "USDT" 6 (some 5000000) rfl).2 5000000 rfl

end P2P
